import Mathlib

/-!
Shallow embedding of `process.py` (geotiff-processor): the per-raster
classification, identity resolution, metadata normalization, warp decision,
outline export and elevation color-ramp computation, with theorems checking
the design document's claims against it.

Python strings are modelled as `List Char`; exact numeric values as `ℚ`
(floats carry exact decimal inputs here); fallible paths as `Except`.
-/

namespace GeotiffProc

/-! ### Elevation color ramp (`ConvertGeotiff.getMdeColorValues`, lines 489-503)

    per = ((trimmedMax / 2) - (trimmedMin / 2)) / 7
    cont = 0
    while cont < 7:
        colorValues.append(trimmedMin)
        trimmedMin += per
        if cont == 1: trimmedMin += per
        elif cont == 3: trimmedMin += per * 3
        elif cont == 4 or cont == 5: trimmedMin += per * 2
        cont += 1
-/

/-- `per = ((trimmedMax / 2) - (trimmedMin / 2)) / 7` from line 489. -/
def perStep (trimmedMin trimmedMax : ℚ) : ℚ :=
  ((trimmedMax / 2) - (trimmedMin / 2)) / 7

/-- One iteration's update of the running value `t` at counter `cont`
(lines 494-500). -/
def loopStep (per t : ℚ) (cont : ℕ) : ℚ :=
  let t1 := t + per
  if cont == 1 then t1 + per
  else if cont == 3 then t1 + per * 3
  else if cont == 4 || cont == 5 then t1 + per * 2
  else t1

/-- The `while cont < 7` accumulation loop of `getMdeColorValues`. -/
def colorLoop (per : ℚ) (cont : ℕ) (t : ℚ) : List ℚ :=
  if cont < 7 then t :: colorLoop per (cont + 1) (loopStep per t cont) else []
termination_by 7 - cont
decreasing_by omega

/-- `ConvertGeotiff.getMdeColorValues`, restricted to the breakpoint
computation from the already-computed percentiles `trimmedMin`/`trimmedMax`. -/
def getMdeColorValues (trimmedMin trimmedMax : ℚ) : List ℚ :=
  colorLoop (perStep trimmedMin trimmedMax) 0 trimmedMin

/-! ### Classification (`processTifs`, line 105): `self.isMDE = self.bandas <= 2` -/

/-- Classification of a raster from its band count alone. -/
def classifyIsMDE (bandas : ℕ) : Bool :=
  decide (bandas ≤ 2)

/-! ### Nodata normalization (`processTifs`, lines 99-103)

    self.noDataValue = self.ultimaBanda.GetNoDataValue()
    if (math.isnan(self.noDataValue)):
        self.noDataValue = 0

`GetNoDataValue()` yields a float, NaN, or Python `None` when the band
declares no nodata value; `math.isnan(None)` raises `TypeError`. -/

/-- What `GetNoDataValue()` on the last band can return. -/
inductive NoDataRead where
  | absent : NoDataRead
  | nan : NoDataRead
  | num : ℚ → NoDataRead
deriving DecidableEq

/-- Python exceptions the modelled code can raise. -/
inductive PyError where
  | typeError : PyError
  | runtimeError : PyError
deriving DecidableEq

/-- The nodata read-and-normalize step of `processTifs`: on `absent`
(`None`), `math.isnan(None)` raises `TypeError`; a NaN value is replaced
by `0`; a numeric value is kept. -/
def normalizeNoData : NoDataRead → Except PyError ℚ
  | .absent => .error .typeError
  | .nan => .ok 0
  | .num q => .ok q

/-! ### Acquisition date (`ConvertGeotiff.getDate`, lines 170-183) -/

/-- Python truthiness of `GetMetadataItem`'s result (`None` or a string,
where the empty string is falsy). -/
def pyTruthy : Option (List Char) → Bool
  | some cs => !cs.isEmpty
  | none => false

/-- Control-flow outcome of `getDate`: which tag is parsed (with the string
handed to `strptime`), or `None` returned. -/
inductive DateOutcome where
  | droneDeploy : List Char → DateOutcome
  | pix4DMatic : List Char → DateOutcome
  | noDate : DateOutcome
deriving DecidableEq

/-- `ConvertGeotiff.getDate`: try `acquisitionStartDate` (last 6 characters
stripped before parsing), then `TIFFTAG_DATETIME`, else `None`. -/
def getDate (droneDeployDate pix4DMaticDate : Option (List Char)) : DateOutcome :=
  if pyTruthy droneDeployDate then
    let raw := droneDeployDate.getD []
    .droneDeploy (raw.take (raw.length - 6))
  else if pyTruthy pix4DMaticDate then
    .pix4DMatic (pix4DMaticDate.getD [])
  else
    .noDate

/-! ### Python string primitives

`process.py` manipulates filenames with `str.split`, `os.path.splitext`
and substring tests.  Strings are modelled as `List Char`. -/

/-- Locate the first occurrence of `sep` in a string: `some (before, after)`
where `after` is everything past the first occurrence, or `none` when `sep`
does not occur. -/
def breakOn (sep : List Char) : List Char → Option (List Char × List Char)
  | [] => if sep.isPrefixOf ([] : List Char) then some ([], []) else none
  | c :: cs =>
    if sep.isPrefixOf (c :: cs) then some ([], (c :: cs).drop sep.length)
    else (breakOn sep cs).map (fun p => (c :: p.1, p.2))

/-- Python's `sep in s` substring test. -/
def containsSubstr (s sep : List Char) : Bool :=
  (breakOn sep s).isSome

/-- Python's `s.split(sep)[0]`: the part before the first occurrence of
`sep` (all of `s` when `sep` does not occur). -/
def pySplit0 (sep s : List Char) : List Char :=
  match breakOn sep s with
  | none => s
  | some p => p.1

/-- Python's `s.split(sep)[1]`: the part between the first and second
occurrence of `sep` (to the end when `sep` occurs once; in Python an
`IndexError` when `sep` does not occur, reached here only under the
`ok` guard). -/
def pySplit1 (sep s : List Char) : List Char :=
  match breakOn sep s with
  | none => []
  | some p => pySplit0 sep p.2

/-- Index of the last occurrence of `c`, if any. -/
def lastIdxOf (c : Char) : List Char → Option ℕ
  | [] => none
  | x :: xs =>
    match lastIdxOf c xs with
    | some i => some (i + 1)
    | none => if x == c then some 0 else none

/-- `removeExtension` (line 26): `os.path.splitext(filename)[0]` for a bare
filename — cut at the last dot unless every character before it is a dot
(leading-dot names such as `.tif` keep their name). -/
def removeExtension (s : List Char) : List Char :=
  match lastIdxOf '.' s with
  | none => s
  | some i => if (s.take i).all (fun c => c == '.') then s else s.take i

/-- `ConvertGeotiff.cleanFilename` (lines 160-168): truncate at the first
dash. -/
def cleanFilename (filename : List Char) : List Char :=
  pySplit0 ['-'] filename

/-! ### Random map id (`secrets.token_hex(nbytes=6)`, lines 112/118) -/

/-- The lowercase hexadecimal alphabet `0123456789abcdef`. -/
def hexDigits : List Char :=
  (List.range 16).map Nat.digitChar

/-- Two-digit lowercase hex encoding of one byte. -/
def byteHex (b : ℕ) : List Char :=
  [hexDigits.getD (b / 16 % 16) '0', hexDigits.getD (b % 16) '0']

/-- `secrets.token_hex`: hex encoding of the drawn random bytes
(`nbytes=6` at the call sites). -/
def tokenHex : List ℕ → List Char
  | [] => []
  | b :: bs => byteHex b ++ tokenHex bs

/-! ### Identity resolution (`processTifs`, lines 92 and 110-121) -/

/-- The per-file identity: `self.mapId` and `self.registroid`. -/
structure Identity where
  mapId : List Char
  registroid : List Char
deriving DecidableEq

/-- Lines 92 and 110-121 of `processTifs`: `ok = params.filename_prefix in
file`; then, by classification, mapId/registroid from the marker split
(`ok`) or from the random token and the cleaned filename (fallback).
`randBytes` are the bytes drawn by `secrets.token_hex(nbytes=6)`. -/
def resolveIdentity (prefixMarker suffixMarker file : List Char)
    (isMDE : Bool) (randBytes : List ℕ) : Identity :=
  let ok := containsSubstr file prefixMarker
  if isMDE then
    { mapId := if ok then
        removeExtension (pySplit0 suffixMarker (pySplit1 prefixMarker file))
      else tokenHex randBytes
      registroid := if ok then pySplit0 prefixMarker file
      else cleanFilename (removeExtension (pySplit0 suffixMarker file)) }
  else
    { mapId := if ok then removeExtension (pySplit1 prefixMarker file)
      else tokenHex randBytes
      registroid := if ok then pySplit0 ['_'] file
      else cleanFilename (removeExtension file) }

/-- The claim's formula for the fallback registry id, following the spec's
words: "the filename (extension stripped) with any trailing `-<version>`
suffix truncated at the first dash" — for comparison with
`resolveIdentity`. -/
def specRegistryIdFallback (file : List Char) : List Char :=
  cleanFilename (removeExtension file)

/-! ### Per-file metadata tags (`processTifs`, lines 143-148)

    self.extra_metadata = params.metadata
    self.extra_metadata.append('registroId={}'.format(self.registroid))
    self.extra_metadata.append('mapId={}'.format(self.mapId))

`self.extra_metadata = params.metadata` binds the shared `params.metadata`
list object itself; the two `append` calls mutate that shared object, so
the next iteration's rebinding sees the previous file's entries. -/

/-- The value of `extra_metadata` after the two appends, given the current
value of the shared `params.metadata` list. -/
def stampFileMetadata (metadata : List (List Char))
    (registroid mapId : List Char) : List (List Char) :=
  metadata ++ ["registroId=".toList ++ registroid, "mapId=".toList ++ mapId]

/-- The metadata tag list stamped onto each file of a batch, threading the
shared mutable `params.metadata` list through the loop of `processTifs`.
Input: initial `params.metadata` and each file's (registroid, mapId);
output: the tag list each file's exports receive. -/
def batchMetadataStamps (initMeta : List (List Char))
    (files : List (List Char × List Char)) : List (List (List Char)) :=
  (files.foldl
    (fun acc f =>
      let newMeta := stampFileMetadata acc.2 f.1 f.2
      (acc.1 ++ [newMeta], newMeta))
    (([] : List (List (List Char))), initMeta)).1

/-- The spec's claimed behavior, for comparison: each file's tag list is
rebuilt from scratch from the configured metadata, independent of the
files processed before it. -/
def specFreshMetadataStamps (initMeta : List (List Char))
    (files : List (List Char × List Char)) : List (List (List Char)) :=
  files.map (fun f => stampFileMetadata initMeta f.1 f.2)

/-! ### Hillshade gamma adjustment (`getColoredHillshade`, lines 597-599)

    Calc(["uint8(((A/255)*(0.5))*255)"], A=tmpHillshade, ...)

`A` is a uint8 band; numpy's `uint8(...)` cast truncates toward zero.
The arithmetic is modelled exactly over `ℚ`. -/

/-- numpy `uint8(...)` cast of a nonnegative value: truncate toward zero,
wrap modulo 256. -/
def uint8cast (q : ℚ) : ℕ :=
  (Int.toNat ⌊q⌋) % 256

/-- The gamma expression `uint8(((A/255)*(0.5))*255)` applied to one pixel
value. -/
def gammaAdjust (a : ℕ) : ℕ :=
  uint8cast (((a : ℚ) / 255) * (0.5) * 255)

/-- The claim's formula, following the spec's words:
`output = round(input/255 × 0.5 × 255)` (round to nearest) — for
comparison with `gammaAdjust`. -/
def specGammaRound (a : ℕ) : ℤ :=
  round (((a : ℚ) / 255) * (0.5) * 255)

/-! ### Reprojection decision (`exportGeoserverFiles`, lines 194-211) -/

/-- The `params.geoserver` fields the warp step reads. -/
structure GeoserverCfg where
  epsg : ℤ
  gsd : ℚ
deriving DecidableEq

/-- A nodata argument: the string `'none'` or an explicit value. -/
inductive NodataParam where
  | none : NodataParam
  | value : ℚ → NodataParam
deriving DecidableEq

/-- The `gdal.Warp` keyword arguments built on lines 196-205. -/
structure WarpKwargs where
  xRes : ℚ
  yRes : ℚ
  srcEpsg : ℤ
  dstEpsg : ℤ
  multithread : Bool
  srcNodata : NodataParam
deriving DecidableEq

/-- Lines 194-211: the warp runs only under `self.epsg !=
params.geoserver['epsg']`, with `srcNodata = 'none' if
self.tieneCanalAlfa else self.noDataValue`; otherwise no warp happens
(`none`). -/
def computeWarpStep (epsg : ℤ) (tieneCanalAlfa : Bool) (noDataValue : ℚ)
    (geoserver : GeoserverCfg) : Option WarpKwargs :=
  if epsg ≠ geoserver.epsg then
    some { xRes := geoserver.gsd / 100, yRes := geoserver.gsd / 100,
           srcEpsg := epsg, dstEpsg := geoserver.epsg, multithread := true,
           srcNodata := if tieneCanalAlfa then .none else .value noDataValue }
  else
    none

/-! ### Footprint outline (`exportOutline`, lines 292-419, and its guard on
line 234: `if (params.outlines['enabled'] and not self.isMDE)`). -/

/-- The `params.outlines` configuration. -/
structure OutlineCfg where
  enabled : Bool
  minimum_area : ℚ
  buffer : ℚ
  simplify : ℚ

/-- The external geometry engine's operations, passed in as black boxes
(the code treats OGR geometry calls as opaque). -/
structure GeomOps (G : Type) where
  area : G → ℚ
  bufferGeom : G → ℚ → G
  makeValid : G → G
  isValid : G → Bool
  simplifyGeom : G → ℚ → G
  isEmptyPolygon : G → Bool
  mergeMultiPolygon : List G → G

/-- The single feature written by `exportOutline` (lines 399-414). -/
structure OutlineFeature (G : Type) where
  geometry : G
  gsd : ℚ
  registro_id : List Char
  map_id : List Char
  date : Option (List Char)

/-- `ConvertGeotiff.exportOutline`, as the list of features written to the
output layer: filter polygons by strict area threshold, merge, buffer,
repair; abandon on invalid geometry or on an empty simplified polygon,
else write exactly one feature. -/
def exportOutline {G : Type} (ops : GeomOps G) (cfg : OutlineCfg)
    (polys : List G) (gsd : ℚ) (registroid mapId : List Char)
    (date : Option (List Char)) : List (OutlineFeature G) :=
  let biggerGeoms := polys.filter (fun g => decide (cfg.minimum_area < ops.area g))
  let mergedGeom := ops.mergeMultiPolygon biggerGeoms
  let mergedGeom2 := ops.makeValid (ops.bufferGeom mergedGeom cfg.buffer)
  if ops.isValid mergedGeom2 then
    let simplifyGeom := ops.simplifyGeom mergedGeom2 cfg.simplify
    if ops.isEmptyPolygon simplifyGeom then []
    else [{ geometry := simplifyGeom, gsd := gsd, registro_id := registroid,
            map_id := mapId, date := date }]
  else []

/-- Line 234 of `exportGeoserverFiles`: the outline export runs only when
outlines are enabled and the raster is not classified as Elevation. -/
def exportGeoserverOutline {G : Type} (ops : GeomOps G) (cfg : OutlineCfg)
    (isMDE : Bool) (polys : List G) (gsd : ℚ) (registroid mapId : List Char)
    (date : Option (List Char)) : List (OutlineFeature G) :=
  if cfg.enabled && !isMDE then
    exportOutline ops cfg polys gsd registroid mapId date
  else []

end GeotiffProc

lemma colorLoop_unfold (per : ℚ) (cont : ℕ) (t : ℚ) :
    GeotiffProc.colorLoop per cont t =
      if cont < 7 then
        t :: GeotiffProc.colorLoop per (cont + 1) (GeotiffProc.loopStep per t cont)
      else [] := by
  rw [GeotiffProc.colorLoop]

/-- Closed form of the breakpoint list: cumulative offsets
`[0, 1, 3, 4, 8, 11, 14]` times `per` from `trimmedMin`. -/
lemma getMdeColorValues_eq (tmin tmax : ℚ) :
    GeotiffProc.getMdeColorValues tmin tmax =
      [tmin,
       tmin + 1 * GeotiffProc.perStep tmin tmax,
       tmin + 3 * GeotiffProc.perStep tmin tmax,
       tmin + 4 * GeotiffProc.perStep tmin tmax,
       tmin + 8 * GeotiffProc.perStep tmin tmax,
       tmin + 11 * GeotiffProc.perStep tmin tmax,
       tmin + 14 * GeotiffProc.perStep tmin tmax] := by
  unfold GeotiffProc.getMdeColorValues
  rw [colorLoop_unfold, colorLoop_unfold, colorLoop_unfold, colorLoop_unfold,
    colorLoop_unfold, colorLoop_unfold, colorLoop_unfold, colorLoop_unfold]
  norm_num [GeotiffProc.loopStep]
  refine ⟨by ring, by ring, by ring, by ring, by ring⟩

/-- C1: the color-ramp computation returns exactly 7 breakpoints whose
cumulative offsets from `trimmedMin`, with `step = ((trimmedMax/2) -
(trimmedMin/2)) / 7`, are `[0, 1, 3, 4, 8, 11, 14]` times `step`; in
particular for `trimmedMin = 0`, `trimmedMax = 14` the breakpoints are
`[0, 1, 3, 4, 8, 11, 14]`. -/
theorem C1_color_ramp_breakpoints (tmin tmax : ℚ) :
    (GeotiffProc.getMdeColorValues tmin tmax).length = 7 ∧
    GeotiffProc.getMdeColorValues tmin tmax =
      [0, 1, 3, 4, 8, 11, 14].map
        (fun k => tmin + k * GeotiffProc.perStep tmin tmax) ∧
    GeotiffProc.getMdeColorValues 0 14 = [0, 1, 3, 4, 8, 11, 14] := by
  refine ⟨by rw [getMdeColorValues_eq]; rfl, ?_, ?_⟩
  · rw [getMdeColorValues_eq]
    simp
  · rw [getMdeColorValues_eq]
    norm_num [GeotiffProc.perStep]

/-- C10: when `trimmedMin ≤ trimmedMax`, the 7 breakpoints are
non-decreasing, the first equals `trimmedMin` and the last equals
`trimmedMax` exactly, so the ramp spans exactly the trimmed range. -/
theorem C10_ramp_spans_range (tmin tmax : ℚ) (h : tmin ≤ tmax) :
    (GeotiffProc.getMdeColorValues tmin tmax).length = 7 ∧
    List.Chain' (· ≤ ·) (GeotiffProc.getMdeColorValues tmin tmax) ∧
    (GeotiffProc.getMdeColorValues tmin tmax).head? = some tmin ∧
    (GeotiffProc.getMdeColorValues tmin tmax).getLast? = some tmax := by
  have hper : (0:ℚ) ≤ GeotiffProc.perStep tmin tmax := by
    unfold GeotiffProc.perStep
    have h2 : (0:ℚ) ≤ tmax / 2 - tmin / 2 := by linarith
    exact div_nonneg h2 (by norm_num)
  have hlast : tmin + 14 * GeotiffProc.perStep tmin tmax = tmax := by
    unfold GeotiffProc.perStep; ring
  rw [getMdeColorValues_eq, hlast]
  refine ⟨rfl, ?_, rfl, by simp⟩
  simp only [List.chain'_cons, List.chain'_singleton, and_true]
  refine ⟨by linarith, by linarith, by linarith, by linarith, by linarith,
    by linarith⟩

/-- Witness for C10 at `trimmedMin = 0`, `trimmedMax = 14`. -/
theorem C10_witness :
    (0:ℚ) ≤ 14 ∧
    ((GeotiffProc.getMdeColorValues 0 14).length = 7 ∧
     List.Chain' (· ≤ ·) (GeotiffProc.getMdeColorValues 0 14) ∧
     (GeotiffProc.getMdeColorValues 0 14).head? = some 0 ∧
     (GeotiffProc.getMdeColorValues 0 14).getLast? = some 14) :=
  ⟨by norm_num, C10_ramp_spans_range 0 14 (by norm_num)⟩

/-- C9: classification assigns Elevation (`isMDE = true`) exactly when the
band count is ≤ 2; band counts 1 and 2 give Elevation, 3 and 4 give
Orthomosaic. Line 105 reads no configuration value: `classifyIsMDE` is a
function of the band count only. -/
theorem C9_band_count_threshold (bandas : ℕ) :
    (GeotiffProc.classifyIsMDE bandas = true ↔ bandas ≤ 2) ∧
    GeotiffProc.classifyIsMDE 1 = true ∧
    GeotiffProc.classifyIsMDE 2 = true ∧
    GeotiffProc.classifyIsMDE 3 = false ∧
    GeotiffProc.classifyIsMDE 4 = false :=
  ⟨by simp [GeotiffProc.classifyIsMDE], by decide, by decide, by decide,
    by decide⟩

/-- C5: when the last band declares no nodata value at all (the read yields
`None`), `math.isnan(None)` raises a `TypeError`, so metadata extraction
fails; successful normalization therefore requires a declared (numeric or
NaN) nodata value. -/
theorem C5_absent_nodata_fails :
    GeotiffProc.normalizeNoData GeotiffProc.NoDataRead.absent =
      Except.error GeotiffProc.PyError.typeError ∧
    ∀ r q, GeotiffProc.normalizeNoData r = Except.ok q →
      r ≠ GeotiffProc.NoDataRead.absent := by
  refine ⟨rfl, ?_⟩
  intro r q hr hcontra
  subst hcontra
  simp [GeotiffProc.normalizeNoData] at hr

/-- Witness for C5: a declared numeric nodata value normalizes successfully
and is indeed not the absent read. -/
theorem C5_witness :
    GeotiffProc.NoDataRead.num 5 ≠ GeotiffProc.NoDataRead.absent :=
  C5_absent_nodata_fails.2 (GeotiffProc.NoDataRead.num 5) 5 rfl

/-- C6: a NaN nodata value is silently normalized to 0 (no error), and with
neither the `acquisitionStartDate` nor the `TIFFTAG_DATETIME` tag present,
`getDate` returns `None` without raising. -/
theorem C6_nan_and_missing_date :
    GeotiffProc.normalizeNoData GeotiffProc.NoDataRead.nan = Except.ok 0 ∧
    GeotiffProc.getDate none none = GeotiffProc.DateOutcome.noDate :=
  ⟨rfl, rfl⟩

lemma tokenHex_length (bs : List ℕ) :
    (GeotiffProc.tokenHex bs).length = 2 * bs.length := by
  induction bs with
  | nil => rfl
  | cons b bs ih =>
    simp only [GeotiffProc.tokenHex, GeotiffProc.byteHex, List.length_append,
      List.length_cons, List.length_nil, ih]
    omega

lemma mem_hexDigits_getD (i : ℕ) (h : i < 16) :
    GeotiffProc.hexDigits.getD i '0' ∈ GeotiffProc.hexDigits := by
  interval_cases i <;> decide

lemma tokenHex_all_hex (bs : List ℕ) :
    (GeotiffProc.tokenHex bs).all
      (fun c => decide (c ∈ GeotiffProc.hexDigits)) = true := by
  induction bs with
  | nil => rfl
  | cons b bs ih =>
    simp only [GeotiffProc.tokenHex, List.all_append, ih, Bool.and_true,
      GeotiffProc.byteHex, List.all_cons, List.all_nil, Bool.and_eq_true,
      decide_eq_true_eq]
    exact ⟨mem_hexDigits_getD _ (Nat.mod_lt _ (by norm_num)),
      mem_hexDigits_getD _ (Nat.mod_lt _ (by norm_num))⟩

/-- C3 counterexample: with prefix marker `_ortho_` and suffix marker
`_mde`, the Elevation-classified file `reg_mde-2.tif` lacks the prefix
marker, yet the resolver's registroid is `reg`, while the claim's formula
(extension stripped, truncated at the first dash) gives `reg_mde`: the
code first truncates at the suffix marker in the Elevation branch. -/
theorem C3_counterexample :
    GeotiffProc.containsSubstr "reg_mde-2.tif".toList "_ortho_".toList = false ∧
    (GeotiffProc.resolveIdentity "_ortho_".toList "_mde".toList
        "reg_mde-2.tif".toList true [0, 0, 0, 0, 0, 0]).registroid =
      "reg".toList ∧
    GeotiffProc.specRegistryIdFallback "reg_mde-2.tif".toList =
      "reg_mde".toList ∧
    ("reg".toList : List Char) ≠ "reg_mde".toList := by
  refine ⟨by decide, by decide, by decide, by decide⟩

/-- C3 (amended): for every filename lacking the prefix marker, mapId is
the 12-hex-character token in both classifications; registroid is the
filename extension-stripped and truncated at the first dash for
Orthomosaic, while for Elevation the filename is first truncated at the
suffix marker, then extension-stripped and truncated at the first dash. -/
theorem C3_fallback_identity (prefixMarker suffixMarker file : List Char)
    (isMDE : Bool) (randBytes : List ℕ)
    (hok : GeotiffProc.containsSubstr file prefixMarker = false)
    (hlen : randBytes.length = 6) :
    (GeotiffProc.resolveIdentity prefixMarker suffixMarker file isMDE
        randBytes).mapId.length = 12 ∧
    (GeotiffProc.resolveIdentity prefixMarker suffixMarker file isMDE
        randBytes).mapId.all (fun c => decide (c ∈ GeotiffProc.hexDigits)) = true ∧
    (GeotiffProc.resolveIdentity prefixMarker suffixMarker file isMDE
        randBytes).registroid =
      (if isMDE then
        GeotiffProc.cleanFilename (GeotiffProc.removeExtension
          (GeotiffProc.pySplit0 suffixMarker file))
      else GeotiffProc.specRegistryIdFallback file) := by
  unfold GeotiffProc.resolveIdentity
  cases isMDE <;>
    simp [hok, tokenHex_length, hlen, tokenHex_all_hex,
      GeotiffProc.specRegistryIdFallback]

/-- Witness for C3 (amended) at `terrainXYZ.tif`, Orthomosaic, with
concrete random bytes. -/
theorem C3_witness :
    (GeotiffProc.resolveIdentity "_ortho_".toList "_mde".toList
        "terrainXYZ.tif".toList false [171, 205, 239, 1, 35, 69]).mapId.length = 12 ∧
    (GeotiffProc.resolveIdentity "_ortho_".toList "_mde".toList
        "terrainXYZ.tif".toList false [171, 205, 239, 1, 35, 69]).mapId.all
      (fun c => decide (c ∈ GeotiffProc.hexDigits)) = true ∧
    (GeotiffProc.resolveIdentity "_ortho_".toList "_mde".toList
        "terrainXYZ.tif".toList false [171, 205, 239, 1, 35, 69]).registroid =
      (if false then
        GeotiffProc.cleanFilename (GeotiffProc.removeExtension
          (GeotiffProc.pySplit0 "_mde".toList "terrainXYZ.tif".toList))
      else GeotiffProc.specRegistryIdFallback "terrainXYZ.tif".toList) :=
  C3_fallback_identity "_ortho_".toList "_mde".toList "terrainXYZ.tif".toList
    false [171, 205, 239, 1, 35, 69] (by decide) (by decide)

/-- C2 fails on the code: `self.extra_metadata = params.metadata` aliases
the shared configuration list and the appends mutate it, so on a two-file
batch the second file's stamped tag list still contains the first file's
`registroId`/`mapId` entries, instead of being rebuilt from scratch. -/
theorem C2_metadata_accumulates :
    GeotiffProc.batchMetadataStamps []
        [("A".toList, "a".toList), ("B".toList, "b".toList)] =
      [["registroId=A".toList, "mapId=a".toList],
       ["registroId=A".toList, "mapId=a".toList,
        "registroId=B".toList, "mapId=b".toList]] ∧
    GeotiffProc.batchMetadataStamps []
        [("A".toList, "a".toList), ("B".toList, "b".toList)] ≠
      GeotiffProc.specFreshMetadataStamps []
        [("A".toList, "a".toList), ("B".toList, "b".toList)] := by
  refine ⟨by decide, by decide⟩

lemma gammaAdjust_eq (a : ℕ) (h : a < 256) :
    GeotiffProc.gammaAdjust a = a / 2 := by
  unfold GeotiffProc.gammaAdjust GeotiffProc.uint8cast
  have h1 : ((a : ℚ) / 255) * (0.5) * 255 = (a : ℚ) / 2 := by ring
  rw [h1]
  have h2 : ⌊(a : ℚ) / 2⌋ = ((a / 2 : ℕ) : ℤ) := by
    exact_mod_cast Rat.floor_natCast_div_natCast a 2
  rw [h2, Int.toNat_natCast]
  exact Nat.mod_eq_of_lt (by omega)

/-- C4 counterexample: at hillshade pixel value 3 the code's
`uint8(((A/255)*(0.5))*255)` truncates 1.5 to 1, while the claim's
`round(input/255 × 0.5 × 255)` gives 2. -/
theorem C4_counterexample :
    GeotiffProc.gammaAdjust 3 = 1 ∧ GeotiffProc.specGammaRound 3 = 2 ∧
    (1 : ℤ) ≠ 2 := by
  refine ⟨gammaAdjust_eq 3 (by norm_num), ?_, by decide⟩
  unfold GeotiffProc.specGammaRound
  have h1 : ((3 : ℕ) : ℚ) / 255 * (0.5) * 255 = 3 / 2 := by norm_num
  rw [h1, round_eq]
  have h2 : (3 : ℚ) / 2 + 1 / 2 = ((2 : ℕ) : ℚ) := by norm_num
  rw [h2, Int.floor_natCast]
  norm_num

/-- C4 (amended): for every hillshade pixel value below 256, the gamma
adjustment yields the input halved and rounded DOWN (uint8 truncation),
`output = ⌊input / 2⌋`, not rounded to nearest. -/
theorem C4_gamma_floor (a : ℕ) (h : a < 256) :
    GeotiffProc.gammaAdjust a = a / 2 :=
  gammaAdjust_eq a h

/-- Witness for C4 (amended) at pixel value 7: the output is 3. -/
theorem C4_witness : 7 < 256 ∧ GeotiffProc.gammaAdjust 7 = 7 / 2 :=
  ⟨by decide, C4_gamma_floor 7 (by decide)⟩

/-- C7: the reprojection warp runs if and only if the raster's EPSG code
differs from the configured tile-server EPSG code, and when it runs the
source-nodata parameter is `'none'` exactly when the raster has an alpha
channel, and otherwise the raster's own nodata value. -/
theorem C7_warp_trigger_and_nodata (epsg : ℤ) (tieneCanalAlfa : Bool)
    (noDataValue : ℚ) (geoserver : GeotiffProc.GeoserverCfg) :
    ((GeotiffProc.computeWarpStep epsg tieneCanalAlfa noDataValue
        geoserver).isSome ↔ epsg ≠ geoserver.epsg) ∧
    (epsg ≠ geoserver.epsg →
      GeotiffProc.computeWarpStep epsg tieneCanalAlfa noDataValue geoserver =
        some { xRes := geoserver.gsd / 100, yRes := geoserver.gsd / 100,
               srcEpsg := epsg, dstEpsg := geoserver.epsg, multithread := true,
               srcNodata := if tieneCanalAlfa then .none
                 else .value noDataValue }) := by
  unfold GeotiffProc.computeWarpStep
  by_cases h : epsg = geoserver.epsg <;> simp [h]

/-- Witness for C7: EPSG 4326 source against an EPSG 3857 tile server with
an alpha channel warps with nodata `'none'`. -/
theorem C7_witness :
    GeotiffProc.computeWarpStep 4326 true 0 ⟨3857, 10⟩ =
      some { xRes := (10 : ℚ) / 100, yRes := (10 : ℚ) / 100, srcEpsg := 4326,
             dstEpsg := 3857, multithread := true,
             srcNodata := if true then .none else .value 0 } :=
  (C7_warp_trigger_and_nodata 4326 true 0 ⟨3857, 10⟩).2 (by decide)

/-- C8: the outline export writes at most one feature, and no outline is
ever exported for a raster classified as Elevation. -/
theorem C8_outline_at_most_one (G : Type) (ops : GeotiffProc.GeomOps G)
    (cfg : GeotiffProc.OutlineCfg) (isMDE : Bool) (polys : List G) (gsd : ℚ)
    (registroid mapId : List Char) (date : Option (List Char)) :
    (GeotiffProc.exportGeoserverOutline ops cfg isMDE polys gsd registroid
        mapId date).length ≤ 1 ∧
    (isMDE = true →
      GeotiffProc.exportGeoserverOutline ops cfg isMDE polys gsd registroid
        mapId date = []) := by
  constructor
  · simp only [GeotiffProc.exportGeoserverOutline, GeotiffProc.exportOutline]
    split
    · split
      · split
        · simp
        · simp
      · simp
    · simp
  · intro h
    subst h
    simp [GeotiffProc.exportGeoserverOutline]

/-- Witness for C8: with a trivial geometry engine on `Unit`, an
Elevation-classified raster produces no outline feature. -/
theorem C8_witness :
    @GeotiffProc.exportGeoserverOutline Unit
      { area := fun _ => 0, bufferGeom := fun g _ => g, makeValid := fun g => g,
        isValid := fun _ => true, simplifyGeom := fun g _ => g,
        isEmptyPolygon := fun _ => true, mergeMultiPolygon := fun _ => () }
      { enabled := true, minimum_area := 0, buffer := 0, simplify := 0 }
      true [] 0 [] [] Option.none = [] :=
  (C8_outline_at_most_one Unit
    { area := fun _ => 0, bufferGeom := fun g _ => g, makeValid := fun g => g,
      isValid := fun _ => true, simplifyGeom := fun g _ => g,
      isEmptyPolygon := fun _ => true, mergeMultiPolygon := fun _ => () }
    { enabled := true, minimum_area := 0, buffer := 0, simplify := 0 }
    true [] 0 [] [] Option.none).2 rfl

/-- Witness for C1 at `trimmedMin = 0`, `trimmedMax = 14`. -/
theorem C1_witness :
    GeotiffProc.getMdeColorValues 0 14 = [0, 1, 3, 4, 8, 11, 14] :=
  (C1_color_ramp_breakpoints 0 14).2.2

/-- Witness for C9: band count 2 classifies as Elevation. -/
theorem C9_witness : GeotiffProc.classifyIsMDE 2 = true :=
  (C9_band_count_threshold 2).1.mpr (by norm_num)
